import Mathlib

/-!
# Verification of the SENTINEL fraud-scoring engine

A shallow embedding, in Lean 4, of the computational core of the SENTINEL
repository (`backend/core/fraud_detector.py`, `backend/models/preprocessor.py`,
`backend/models/autoencoder.py`, `backend/config.py`), together with theorems
settling the stated properties of that core.

Modelling conventions:
* Python floats are modelled as `ℚ` (all the constants involved are decimal
  literals, and the claims are about exact formulas).
* A Python dict that either carries payload keys or an `'error'` key is
  modelled as a two-constructor inductive type.
* A `try/except` block whose body can fail for reasons outside the embedded
  fragment (numpy, attribute errors, misconfiguration) is modelled by an
  explicit `exn : Option String` parameter: `some e` means the guarded body
  raised exception `e`, `none` means it ran to completion.
-/

namespace Sentinel

/-- `Settings.FRAUD_THRESHOLD` from `backend/config.py` (default `0.7`). -/
def FRAUD_THRESHOLD : ℚ := 7/10

/-- One entry of the `ml_predictions` dict built by
`FraudDetector._run_ml_models`: either the payload produced by
`_predict_with_model` (its `fraud_probability` and `confidence_score` keys) or
an `{'error': msg}` marker. -/
inductive MLEntry where
  | ok (fraud_probability confidence_score : ℚ)
  | err (msg : String)
deriving DecidableEq

/-- The payload of a successful rule evaluation: the `triggered` and
`risk_score` keys of the dict each rule coroutine returns (the human-readable
`reason` string carries no information used downstream and is not modelled). -/
structure RuleOut where
  triggered : Bool
  risk_score : ℚ
deriving DecidableEq

/-- One entry of the `rule_predictions` dict built by
`FraudDetector._run_rules`: either a rule payload or an `{'error': msg}`
marker recorded when that rule raised. -/
inductive REntry where
  | ok (o : RuleOut)
  | err (msg : String)
deriving DecidableEq

/-- The dict returned by `FraudDetector._ensemble_predictions`. -/
structure Verdict where
  fraud_probability : ℚ
  risk_score : ℚ
  confidence_score : ℚ
  is_fraud : Bool
  method : String
deriving DecidableEq

/-- The `ml_probs` list of `_ensemble_predictions` (lines 401-407): the
`fraud_probability` of every model prediction not marked `error`. -/
def ml_fraud_probs (ml_predictions : List MLEntry) : List ℚ :=
  ml_predictions.filterMap fun e =>
    match e with
    | .ok p _ => some p
    | .err _ => none

/-- The `ml_confidences` list of `_ensemble_predictions` (lines 401-407). -/
def ml_confidences (ml_predictions : List MLEntry) : List ℚ :=
  ml_predictions.filterMap fun e =>
    match e with
    | .ok _ c => some c
    | .err _ => none

/-- The `rule_scores` list of `_ensemble_predictions` (lines 409-413): the
`risk_score` of every rule result that is not an error and has
`triggered = True`. -/
def triggered_rule_scores (rule_predictions : List REntry) : List ℚ :=
  rule_predictions.filterMap fun e =>
    match e with
    | .ok o => if o.triggered then some o.risk_score else none
    | .err _ => none

/-- The body of the `try` block of `_ensemble_predictions`
(lines 399-441). -/
def ensemble_body (ml_predictions : List MLEntry) (rule_predictions : List REntry)
    (threshold : ℚ) : Verdict :=
  let ml_probs := ml_fraud_probs ml_predictions
  let rule_scores := triggered_rule_scores rule_predictions
  let ml_fraud_prob : ℚ :=
    if ml_probs = [] then 1/2 else ml_probs.sum / (ml_probs.length : ℚ)
  let ml_confidence : ℚ :=
    if ml_probs = [] then 1/2
    else (ml_confidences ml_predictions).sum / ((ml_confidences ml_predictions).length : ℚ)
  let rule_risk_score : ℚ :=
    if rule_scores = [] then 1/10 else rule_scores.sum / (rule_scores.length : ℚ)
  let final_fraud_prob : ℚ := 7/10 * ml_fraud_prob + 3/10 * rule_risk_score
  { fraud_probability := final_fraud_prob
    risk_score := rule_risk_score
    confidence_score := ml_confidence
    is_fraud := decide (final_fraud_prob > threshold)
    method := "ensemble" }

/-- The dict returned by the `except` clause of `_ensemble_predictions`
(lines 443-451). -/
def fallback_verdict : Verdict :=
  { fraud_probability := 1/2
    risk_score := 1/2
    confidence_score := 1/2
    is_fraud := false
    method := "fallback" }

/-- `FraudDetector._ensemble_predictions` (lines 397-451).  `exn` records
whether an exception was raised inside the `try` block. -/
def ensemble_predictions (ml_predictions : List MLEntry) (rule_predictions : List REntry)
    (threshold : ℚ) (exn : Option String) : Verdict :=
  match exn with
  | some _ => fallback_verdict
  | none => ensemble_body ml_predictions rule_predictions threshold

/-- **C1.** For every scoring call, the ensemble combination computes: ML
aggregate = arithmetic mean of `fraud_probability` over model predictions not
marked error (`0.5` if none succeeded), rule aggregate = arithmetic mean of
`risk_score` over triggered, non-error rule results (`0.1` if none triggered),
final fraud probability = `0.7 × ML aggregate + 0.3 × rule aggregate`, and
`is_fraud = true` exactly when the final fraud probability is strictly greater
than the configured fraud threshold (default `0.7`). -/
theorem ensemble_combination_formula (ml_predictions : List MLEntry)
    (rule_predictions : List REntry) (threshold : ℚ) :
    (ensemble_predictions ml_predictions rule_predictions threshold none).fraud_probability
      = 7/10 * (if ml_fraud_probs ml_predictions = [] then 1/2
          else (ml_fraud_probs ml_predictions).sum / ((ml_fraud_probs ml_predictions).length : ℚ))
        + 3/10 * (if triggered_rule_scores rule_predictions = [] then 1/10
          else (triggered_rule_scores rule_predictions).sum
            / ((triggered_rule_scores rule_predictions).length : ℚ))
    ∧ ((ensemble_predictions ml_predictions rule_predictions threshold none).is_fraud = true
        ↔ (ensemble_predictions ml_predictions rule_predictions threshold none).fraud_probability
            > threshold)
    ∧ FRAUD_THRESHOLD = 7/10 := by
  refine ⟨rfl, ?_, rfl⟩
  simp only [ensemble_predictions, ensemble_body, decide_eq_true_eq]

/-- **C2.** If an exception is raised anywhere inside the combination step, the
combiner returns, instead of propagating the exception, the deterministic
fallback verdict with `fraud_probability = 0.5`, `risk_score = 0.5`,
`confidence_score = 0.5`, `is_fraud = false`, and `method = "fallback"`. -/
theorem ensemble_fallback_on_exception (ml_predictions : List MLEntry)
    (rule_predictions : List REntry) (threshold : ℚ) (e : String) :
    ensemble_predictions ml_predictions rule_predictions threshold (some e) = fallback_verdict
    ∧ fallback_verdict.fraud_probability = 1/2
    ∧ fallback_verdict.risk_score = 1/2
    ∧ fallback_verdict.confidence_score = 1/2
    ∧ fallback_verdict.is_fraud = false
    ∧ fallback_verdict.method = "fallback" :=
  ⟨rfl, rfl, rfl, rfl, rfl, rfl⟩

/-! ## The transaction record and the rule battery -/

/-- The slice of the `transaction_data` dict read by the rules and by
`_calculate_risk_metrics`.  `none` models an absent key (or a `None` value);
`timestamp_hour` models the hour extracted from a present timestamp
(`dt.hour`), `none` a missing/falsy timestamp. -/
structure Tx where
  amount : ℚ
  latitude : Option ℚ
  longitude : Option ℚ
  timestamp_hour : Option ℕ
  merchant_category : String
  ip_address : Option String
deriving DecidableEq

/-- `FraudDetector._amount_threshold_rule` (lines 285-309). -/
def amount_threshold_rule (tx : Tx) : RuleOut :=
  if tx.amount > 10000 then ⟨true, 8/10⟩
  else if tx.amount > 5000 then ⟨true, 6/10⟩
  else ⟨false, 1/10⟩

/-- `FraudDetector._velocity_rule` (lines 311-319): placeholder, never
triggered. -/
def velocity_rule (_tx : Tx) : RuleOut := ⟨false, 2/10⟩

/-- `FraudDetector._location_rule` (lines 321-345). -/
def location_rule (tx : Tx) : RuleOut :=
  if tx.latitude = none ∨ tx.longitude = none then ⟨true, 7/10⟩
  else if 90 < |tx.latitude.getD 0| ∨ 180 < |tx.longitude.getD 0| then ⟨true, 9/10⟩
  else ⟨false, 1/10⟩

/-- `FraudDetector._time_pattern_rule` (lines 347-375). -/
def time_pattern_rule (tx : Tx) : RuleOut :=
  if tx.timestamp_hour = none then ⟨true, 6/10⟩
  else if 2 ≤ tx.timestamp_hour.getD 0 ∧ tx.timestamp_hour.getD 0 ≤ 5 then ⟨true, 5/10⟩
  else ⟨false, 1/10⟩

/-- The `high_risk_categories` list of `_merchant_risk_rule` (line 382). -/
def high_risk_categories : List String := ["gambling", "cryptocurrency", "adult", "pharmacy"]

/-- Python's substring containment `needle in haystack` on char lists. -/
def char_list_contains (needle : List Char) : List Char → Bool
  | [] => needle.isEmpty
  | c :: rest => needle.isPrefixOf (c :: rest) || char_list_contains needle rest

/-- The char list of `s.lower()`. -/
def lower_chars (s : String) : List Char := s.toList.map Char.toLower

/-- `FraudDetector._merchant_risk_rule` (lines 377-395): case-insensitive
substring match against the high-risk category list. -/
def merchant_risk_rule (tx : Tx) : RuleOut :=
  if high_risk_categories.any
      (fun cat => char_list_contains cat.toList (lower_chars tx.merchant_category))
  then ⟨true, 7/10⟩
  else ⟨false, 1/10⟩

/-- Recording one rule's outcome into the `rule_results` dict: the inner
`try/except` of `_run_rules` (lines 272-277). -/
def rule_entry (r : Except String RuleOut) : REntry :=
  match r with
  | .ok o => .ok o
  | .error e => .err e

/-- `FraudDetector._run_rules` (lines 265-283), parametrised by the rule
battery.  A rule is a function that either returns its result dict or raises
(`Except.error`). -/
def run_rules_with (rules : List (Tx → Except String RuleOut)) (tx : Tx) : List REntry :=
  rules.map fun r => rule_entry (r tx)

/-- A rule implementation that cannot raise (each of the five embedded rules
is total). -/
def lift_rule (f : Tx → RuleOut) : Tx → Except String RuleOut :=
  fun tx => .ok (f tx)

/-- The rule battery installed by `FraudDetector._load_rules`
(lines 88-94). -/
def detector_rules : List (Tx → Except String RuleOut) :=
  [lift_rule amount_threshold_rule, lift_rule velocity_rule, lift_rule location_rule,
   lift_rule time_pattern_rule, lift_rule merchant_risk_rule]

/-- `FraudDetector._run_rules` on the installed battery. -/
def run_rules (tx : Tx) : List REntry :=
  run_rules_with detector_rules tx

/-- **C4.** For every scoring call, an exception raised inside one rule is
recorded as an error entry for that rule only: every other rule in the battery
is still evaluated and its result is present, and the overall scoring call is
not aborted by the failing rule. -/
theorem rule_isolation (rules : List (Tx → Except String RuleOut)) (tx : Tx) :
    (run_rules_with rules tx).length = rules.length
    ∧ (∀ (i : ℕ) (r : Tx → Except String RuleOut) (e : String),
        rules[i]? = some r → r tx = .error e →
          (run_rules_with rules tx)[i]? = some (.err e))
    ∧ (∀ (i : ℕ) (r : Tx → Except String RuleOut) (o : RuleOut),
        rules[i]? = some r → r tx = .ok o →
          (run_rules_with rules tx)[i]? = some (.ok o)) := by
  refine ⟨List.length_map _ _, ?_, ?_⟩
  · intro i r e hi hr
    have h2 : (run_rules_with rules tx)[i]? = some (rule_entry (r tx)) := by
      simp [run_rules_with, List.getElem?_map, hi]
    rw [h2, hr]
    rfl
  · intro i r o hi hr
    have h2 : (run_rules_with rules tx)[i]? = some (rule_entry (r tx)) := by
      simp [run_rules_with, List.getElem?_map, hi]
    rw [h2, hr]
    rfl

/-- A battery whose middle rule raises, for exercising `rule_isolation`. -/
def sample_rules : List (Tx → Except String RuleOut) :=
  [lift_rule amount_threshold_rule, fun _ => .error "boom", lift_rule velocity_rule]

/-- A benign concrete transaction: moderate amount, valid coordinates,
daytime, ordinary merchant, IP present. -/
def sample_tx : Tx :=
  { amount := 50
    latitude := some 10
    longitude := some 20
    timestamp_hour := some 12
    merchant_category := "retail"
    ip_address := some "203.0.113.7" }

/-- Witness for `rule_isolation`: in a 3-rule battery whose second rule
raises, the failing rule yields an error entry while both neighbours still
report their results. -/
theorem rule_isolation_witness :
    (run_rules_with sample_rules sample_tx).length = 3
    ∧ (run_rules_with sample_rules sample_tx)[1]? = some (.err "boom")
    ∧ (run_rules_with sample_rules sample_tx)[2]? = some (.ok ⟨false, 2/10⟩) :=
  ⟨(rule_isolation sample_rules sample_tx).1.trans rfl,
   (rule_isolation sample_rules sample_tx).2.1 1 (fun _ => .error "boom") "boom" rfl rfl,
   (rule_isolation sample_rules sample_tx).2.2 2 (lift_rule velocity_rule) ⟨false, 2/10⟩ rfl rfl⟩

/-! ## Risk metrics and the scoring pipeline -/

/-- `FraudDetector._get_risk_level` (lines 491-500). -/
def get_risk_level (risk_score : ℚ) : String :=
  if 8/10 ≤ risk_score then "critical"
  else if 6/10 ≤ risk_score then "high"
  else if 4/10 ≤ risk_score then "medium"
  else "low"

/-- `FraudDetector._get_recommended_action` (lines 502-511). -/
def get_recommended_action (risk_score : ℚ) : String :=
  if 8/10 ≤ risk_score then "block"
  else if 6/10 ≤ risk_score then "review"
  else if 4/10 ≤ risk_score then "monitor"
  else "approve"

/-- The dict returned by `FraudDetector._calculate_risk_metrics`. -/
structure RiskMetrics where
  composite_risk_score : ℚ
  risk_factors : List String
  risk_level : String
  recommended_action : String
deriving DecidableEq

/-- The `risk_factors` list built by `_calculate_risk_metrics`
(lines 459-468), in source order. -/
def risk_factors_of (tx : Tx) : List String :=
  (if tx.amount > 10000 then ["high_amount"] else [])
    ++ (if tx.latitude = none then ["missing_location"] else [])
    ++ (if tx.ip_address = none then ["missing_ip"] else [])

/-- `FraudDetector._calculate_risk_metrics` (lines 453-489).  `exn` records
whether an exception was raised inside the `try` block (whose fallback dict is
lines 484-489). -/
def calculate_risk_metrics (prediction : Verdict) (tx : Tx) (exn : Option String) :
    RiskMetrics :=
  match exn with
  | some _ => ⟨1/2, ["calculation_error"], "medium", "review"⟩
  | none =>
    let risk_factors := risk_factors_of tx
    let base_risk := prediction.fraud_probability
    let factor_multiplier : ℚ := 1 + (risk_factors.length : ℚ) * (1/10)
    let composite_risk := min 1 (base_risk * factor_multiplier)
    ⟨composite_risk, risk_factors, get_risk_level composite_risk,
      get_recommended_action composite_risk⟩

/-- The result dict assembled by `FraudDetector.detect_fraud`
(lines 126-138); fields not derived from the embedded computation
(`transaction_id`, timings, timestamps) are omitted. -/
structure DetectionResult where
  fraud_probability : ℚ
  risk_score : ℚ
  confidence_score : ℚ
  is_fraud : Bool
  detection_method : String
  rule_predictions : List REntry
  risk_metrics : RiskMetrics
deriving DecidableEq

/-- `FraudDetector.detect_fraud` (lines 99-141): rule evaluation, ensemble
combination and risk metrics for one scoring call.  The ML model outputs
(produced by external tensorflow/sklearn models in `_run_ml_models`) enter as
the `ml_predictions` argument. -/
def detect_fraud (tx : Tx) (ml_predictions : List MLEntry) : DetectionResult :=
  let rule_predictions := run_rules tx
  let final_prediction :=
    ensemble_predictions ml_predictions rule_predictions FRAUD_THRESHOLD none
  let risk_metrics := calculate_risk_metrics final_prediction tx none
  { fraud_probability := final_prediction.fraud_probability
    risk_score := final_prediction.risk_score
    confidence_score := final_prediction.confidence_score
    is_fraud := final_prediction.is_fraud
    detection_method := final_prediction.method
    rule_predictions := rule_predictions
    risk_metrics := risk_metrics }

/-- **C9.** For every composite risk score in `[0, 1]`, the derived
`risk_level` and `recommended_action` fall in the same tier bucket under the
shared threshold ladder: score ≥ 0.8 gives (critical, block),
0.6 ≤ score < 0.8 gives (high, review), 0.4 ≤ score < 0.6 gives
(medium, monitor), and score < 0.4 gives (low, approve). -/
theorem risk_ladders_lockstep (s : ℚ) (h0 : 0 ≤ s) (h1 : s ≤ 1) :
    (8/10 ≤ s → get_risk_level s = "critical" ∧ get_recommended_action s = "block")
    ∧ (6/10 ≤ s → s < 8/10 →
        get_risk_level s = "high" ∧ get_recommended_action s = "review")
    ∧ (4/10 ≤ s → s < 6/10 →
        get_risk_level s = "medium" ∧ get_recommended_action s = "monitor")
    ∧ (s < 4/10 → get_risk_level s = "low" ∧ get_recommended_action s = "approve") := by
  refine ⟨fun h => ?_, fun h h' => ?_, fun h h' => ?_, fun h => ?_⟩ <;>
    constructor <;>
      · simp only [get_risk_level, get_recommended_action]
        split_ifs <;> first | rfl | linarith

/-- Witness for `risk_ladders_lockstep`: each tier at a concrete score. -/
theorem risk_ladders_lockstep_witness :
    (get_risk_level (85/100) = "critical" ∧ get_recommended_action (85/100) = "block")
    ∧ (get_risk_level (7/10) = "high" ∧ get_recommended_action (7/10) = "review")
    ∧ (get_risk_level (1/2) = "medium" ∧ get_recommended_action (1/2) = "monitor")
    ∧ (get_risk_level (1/5) = "low" ∧ get_recommended_action (1/5) = "approve") :=
  ⟨(risk_ladders_lockstep (85/100) (by norm_num) (by norm_num)).1 (by norm_num),
   (risk_ladders_lockstep (7/10) (by norm_num) (by norm_num)).2.1 (by norm_num) (by norm_num),
   (risk_ladders_lockstep (1/2) (by norm_num) (by norm_num)).2.2.1 (by norm_num) (by norm_num),
   (risk_ladders_lockstep (1/5) (by norm_num) (by norm_num)).2.2.2 (by norm_num)⟩

/-- An ML prediction list whose single (non-error) entry reports the negative
`fraud_probability` `-10`, as the regression branch of `_predict_with_model`
(line 256, `float(prediction[0])`) can: nothing in that branch restricts the
model output to `[0, 1]`. -/
def negative_ml : List MLEntry := [.ok (-10) (1/2)]

/-- On `sample_tx` no rule triggers. -/
lemma sample_tx_rules : run_rules sample_tx
    = [.ok ⟨false, 1/10⟩, .ok ⟨false, 2/10⟩, .ok ⟨false, 1/10⟩,
       .ok ⟨false, 1/10⟩, .ok ⟨false, 1/10⟩] := by
  have hm : high_risk_categories.any
      (fun cat => char_list_contains cat.toList (lower_chars sample_tx.merchant_category))
      = false := by decide
  norm_num [run_rules, run_rules_with, detector_rules, lift_rule, rule_entry,
    amount_threshold_rule, velocity_rule, location_rule, time_pattern_rule,
    merchant_risk_rule, hm, sample_tx]
  exact ⟨⟨by simp, by simp⟩, by simp, by decide⟩

/-- On `sample_tx` the triggered-rule score list is empty. -/
lemma sample_tx_trig : triggered_rule_scores (run_rules sample_tx) = [] := by
  rw [sample_tx_rules]; simp [triggered_rule_scores]

/-- `sample_tx` exhibits no risk factor. -/
lemma sample_tx_factors : risk_factors_of sample_tx = [] := by
  norm_num [risk_factors_of, sample_tx]
  exact ⟨by simp, by simp⟩

/-- The ensemble fraud probability on `sample_tx` with the rogue negative
model output is `-697/100`. -/
lemma negative_ml_fraud_prob :
    (ensemble_predictions negative_ml (run_rules sample_tx)
      FRAUD_THRESHOLD none).fraud_probability = -697/100 := by
  have hml : ml_fraud_probs negative_ml = [-10] := by
    simp [ml_fraud_probs, negative_ml, List.filterMap_cons]
  have e : (ensemble_predictions negative_ml (run_rules sample_tx)
        FRAUD_THRESHOLD none).fraud_probability
      = 7/10 * (if ml_fraud_probs negative_ml = [] then (1:ℚ)/2
          else (ml_fraud_probs negative_ml).sum / ((ml_fraud_probs negative_ml).length : ℚ))
        + 3/10 * (if triggered_rule_scores (run_rules sample_tx) = [] then (1:ℚ)/10
          else (triggered_rule_scores (run_rules sample_tx)).sum
            / ((triggered_rule_scores (run_rules sample_tx)).length : ℚ)) := rfl
  rw [e, hml, sample_tx_trig]
  norm_num

/-- **C8, counterexample.** The claim says the composite risk score equals
`base × (1 + 0.1 × |factors|)` *clamped to `[0, 1]`*.  The code only takes
`min(1.0, ·)` (line 473) and never clamps below: on a scoring call whose
(non-error) model prediction reports a negative fraud probability, the
composite risk score is `-697/100`, outside `[0, 1]`. -/
theorem composite_risk_below_zero_example :
    (detect_fraud sample_tx negative_ml).risk_metrics.composite_risk_score = -697/100
    ∧ ¬ (0 ≤ (detect_fraud sample_tx negative_ml).risk_metrics.composite_risk_score) := by
  have hcomp : (detect_fraud sample_tx negative_ml).risk_metrics.composite_risk_score
      = min 1 ((ensemble_predictions negative_ml (run_rules sample_tx)
            FRAUD_THRESHOLD none).fraud_probability
          * (1 + ((risk_factors_of sample_tx).length : ℚ) * (1/10))) := rfl
  rw [hcomp, negative_ml_fraud_prob, sample_tx_factors]
  norm_num [min_def]

/-- **C8, amended.** For every scoring call, the risk factors are exactly:
amount above 10,000, missing location (latitude absent), and missing
`ip_address`; the composite risk score equals
`base_fraud_probability × (1 + 0.1 × |risk_factors|)` clamped *above* at 1
(`min(1.0, ·)`), which coincides with the `[0, 1]`-clamp whenever the base
fraud probability is nonnegative. -/
theorem composite_risk_formula (prediction : Verdict) (tx : Tx) :
    (calculate_risk_metrics prediction tx none).risk_factors
      = (if tx.amount > 10000 then ["high_amount"] else [])
        ++ (if tx.latitude = none then ["missing_location"] else [])
        ++ (if tx.ip_address = none then ["missing_ip"] else [])
    ∧ (calculate_risk_metrics prediction tx none).composite_risk_score
      = min 1 (prediction.fraud_probability
          * (1 + (((calculate_risk_metrics prediction tx none).risk_factors.length : ℚ))
              * (1/10)))
    ∧ (0 ≤ prediction.fraud_probability →
        (calculate_risk_metrics prediction tx none).composite_risk_score
          = max 0 (min 1 (prediction.fraud_probability
              * (1 + (((calculate_risk_metrics prediction tx none).risk_factors.length : ℚ))
                  * (1/10))))) := by
  refine ⟨rfl, rfl, fun hbase => ?_⟩
  have hmul : (0:ℚ) ≤ prediction.fraud_probability
      * (1 + ((risk_factors_of tx).length : ℚ) * (1/10)) := by
    have : (0:ℚ) ≤ ((risk_factors_of tx).length : ℚ) := Nat.cast_nonneg _
    have h1 : (0:ℚ) ≤ 1 + ((risk_factors_of tx).length : ℚ) * (1/10) := by linarith
    exact mul_nonneg hbase h1
  have h0 : (0:ℚ) ≤ min 1 (prediction.fraud_probability
      * (1 + ((risk_factors_of tx).length : ℚ) * (1/10))) :=
    le_min (by norm_num) hmul
  have hmetrics : (calculate_risk_metrics prediction tx none).composite_risk_score
      = min 1 (prediction.fraud_probability
          * (1 + ((risk_factors_of tx).length : ℚ) * (1/10))) := rfl
  have hfac : (calculate_risk_metrics prediction tx none).risk_factors
      = risk_factors_of tx := rfl
  rw [hmetrics, hfac]
  exact (max_eq_right h0).symm

/-- A concrete in-range verdict for exercising `composite_risk_formula`. -/
def sample_prediction : Verdict :=
  { fraud_probability := 1/2
    risk_score := 1/10
    confidence_score := 1/2
    is_fraud := false
    method := "ensemble" }

/-- Witness for `composite_risk_formula`: at a nonnegative base fraud
probability the composite risk score agrees with the `[0, 1]`-clamp. -/
theorem composite_risk_formula_witness :
    0 ≤ sample_prediction.fraud_probability
    ∧ (calculate_risk_metrics sample_prediction sample_tx none).composite_risk_score
      = max 0 (min 1 (sample_prediction.fraud_probability
          * (1 + (((calculate_risk_metrics sample_prediction sample_tx none
              ).risk_factors.length : ℚ)) * (1/10)))) :=
  ⟨by norm_num [sample_prediction],
   (composite_risk_formula sample_prediction sample_tx).2.2
     (by norm_num [sample_prediction])⟩

/-! ## Range of the verdict fields (C3) -/

/-- The `ml_fraud_prob` local of `_ensemble_predictions` (lines 416-421). -/
def ml_aggregate (ml_predictions : List MLEntry) : ℚ :=
  if ml_fraud_probs ml_predictions = [] then 1/2
  else (ml_fraud_probs ml_predictions).sum / ((ml_fraud_probs ml_predictions).length : ℚ)

/-- The `ml_confidence` local of `_ensemble_predictions` (lines 416-421);
note the guard is on `ml_probs`, as in the source. -/
def confidence_aggregate (ml_predictions : List MLEntry) : ℚ :=
  if ml_fraud_probs ml_predictions = [] then 1/2
  else (ml_confidences ml_predictions).sum / ((ml_confidences ml_predictions).length : ℚ)

/-- The `rule_risk_score` local of `_ensemble_predictions` (lines 423-426). -/
def rule_aggregate (rule_predictions : List REntry) : ℚ :=
  if triggered_rule_scores rule_predictions = [] then 1/10
  else (triggered_rule_scores rule_predictions).sum
    / ((triggered_rule_scores rule_predictions).length : ℚ)

lemma ensemble_body_fraud_prob (ml : List MLEntry) (rp : List REntry) (thr : ℚ) :
    (ensemble_body ml rp thr).fraud_probability
      = 7/10 * ml_aggregate ml + 3/10 * rule_aggregate rp := rfl

lemma list_sum_le_length (l : List ℚ) (h : ∀ x ∈ l, x ≤ 1) : l.sum ≤ (l.length : ℚ) := by
  induction l with
  | nil => simp
  | cons a t ih =>
    simp only [List.sum_cons, List.length_cons]
    push_cast
    have ha := h a (List.mem_cons_self a t)
    have ht := ih fun x hx => h x (List.mem_cons_of_mem a hx)
    linarith

/-- An arithmetic mean of values in `[0, 1]` is in `[0, 1]`. -/
lemma mean_bounds (l : List ℚ) (h : ∀ x ∈ l, 0 ≤ x ∧ x ≤ 1) (hne : l ≠ []) :
    0 ≤ l.sum / (l.length : ℚ) ∧ l.sum / (l.length : ℚ) ≤ 1 := by
  have hlen : 0 < (l.length : ℚ) := by
    exact_mod_cast List.length_pos.mpr hne
  constructor
  · exact div_nonneg (List.sum_nonneg fun x hx => (h x hx).1) hlen.le
  · rw [div_le_one hlen]
    exact list_sum_le_length l fun x hx => (h x hx).2

/-- `ml_probs` and `ml_confidences` are collected in lockstep
(lines 404-407). -/
lemma probs_confs_length (ml : List MLEntry) :
    (ml_fraud_probs ml).length = (ml_confidences ml).length := by
  induction ml with
  | nil => rfl
  | cons e t ih =>
    cases e with
    | ok p c => simpa [ml_fraud_probs, ml_confidences, List.filterMap_cons] using ih
    | err m => simpa [ml_fraud_probs, ml_confidences, List.filterMap_cons] using ih

lemma ml_aggregate_bounds (ml : List MLEntry)
    (hp : ∀ x ∈ ml_fraud_probs ml, 0 ≤ x ∧ x ≤ 1) :
    0 ≤ ml_aggregate ml ∧ ml_aggregate ml ≤ 1 := by
  unfold ml_aggregate
  split_ifs with h
  · norm_num
  · exact mean_bounds _ hp h

lemma confidence_aggregate_bounds (ml : List MLEntry)
    (hc : ∀ x ∈ ml_confidences ml, 0 ≤ x ∧ x ≤ 1) :
    0 ≤ confidence_aggregate ml ∧ confidence_aggregate ml ≤ 1 := by
  unfold confidence_aggregate
  split_ifs with h
  · norm_num
  · have hne : ml_confidences ml ≠ [] := by
      intro hnil
      exact h (List.length_eq_zero.mp ((probs_confs_length ml).trans (by rw [hnil]; rfl)))
    exact mean_bounds _ hc hne

lemma rule_aggregate_bounds (rp : List REntry)
    (hr : ∀ x ∈ triggered_rule_scores rp, 0 ≤ x ∧ x ≤ 1) :
    0 ≤ rule_aggregate rp ∧ rule_aggregate rp ≤ 1 := by
  unfold rule_aggregate
  split_ifs with h
  · norm_num
  · exact mean_bounds _ hr h

lemma amount_threshold_rule_bounds (tx : Tx) :
    0 ≤ (amount_threshold_rule tx).risk_score ∧ (amount_threshold_rule tx).risk_score ≤ 1 := by
  unfold amount_threshold_rule; split_ifs <;> norm_num

lemma velocity_rule_bounds (tx : Tx) :
    0 ≤ (velocity_rule tx).risk_score ∧ (velocity_rule tx).risk_score ≤ 1 := by
  unfold velocity_rule; norm_num

lemma location_rule_bounds (tx : Tx) :
    0 ≤ (location_rule tx).risk_score ∧ (location_rule tx).risk_score ≤ 1 := by
  unfold location_rule; split_ifs <;> norm_num

lemma time_pattern_rule_bounds (tx : Tx) :
    0 ≤ (time_pattern_rule tx).risk_score ∧ (time_pattern_rule tx).risk_score ≤ 1 := by
  unfold time_pattern_rule; split_ifs <;> norm_num

lemma merchant_risk_rule_bounds (tx : Tx) :
    0 ≤ (merchant_risk_rule tx).risk_score ∧ (merchant_risk_rule tx).risk_score ≤ 1 := by
  unfold merchant_risk_rule; split_ifs <;> norm_num

/-- Every entry the installed rule battery produces is a successful result
whose risk score lies in `[0, 1]`. -/
lemma run_rules_entry (tx : Tx) (e : REntry) (he : e ∈ run_rules tx) :
    ∃ o : RuleOut, e = .ok o ∧ 0 ≤ o.risk_score ∧ o.risk_score ≤ 1 := by
  simp only [run_rules, run_rules_with, detector_rules, List.map_cons, List.map_nil,
    lift_rule, rule_entry, List.mem_cons, List.not_mem_nil, or_false] at he
  rcases he with h | h | h | h | h <;> subst h
  · exact ⟨_, rfl, amount_threshold_rule_bounds tx⟩
  · exact ⟨_, rfl, velocity_rule_bounds tx⟩
  · exact ⟨_, rfl, location_rule_bounds tx⟩
  · exact ⟨_, rfl, time_pattern_rule_bounds tx⟩
  · exact ⟨_, rfl, merchant_risk_rule_bounds tx⟩

lemma trig_scores_bounds (tx : Tx) :
    ∀ x ∈ triggered_rule_scores (run_rules tx), 0 ≤ x ∧ x ≤ 1 := by
  intro x hx
  simp only [triggered_rule_scores, List.mem_filterMap] at hx
  obtain ⟨e, he, hxe⟩ := hx
  obtain ⟨o, rfl, hb⟩ := run_rules_entry tx e he
  by_cases ht : o.triggered
  · simp only [ht, if_true] at hxe
    obtain rfl : o.risk_score = x := by simpa using hxe
    exact hb
  · simp [ht] at hxe

/-- A single well-behaved model prediction. -/
def good_ml : List MLEntry := [.ok (9/10) (8/10)]

/-- An ML prediction list whose single (non-error) entry reports
`fraud_probability = 5`: the regression branch of `_predict_with_model`
(line 256) forwards the raw model output without restricting it to
`[0, 1]`. -/
def rogue_ml : List MLEntry := [.ok 5 5]

/-- **C3, counterexample.** The claim says that for every valid transaction
with `amount > 0` the verdict's probability and score fields lie in `[0, 1]`.
The combiner never clamps: on a scoring call for a transaction with
`amount = 50 > 0` whose (non-error) model prediction reports
`fraud_probability = 5`, the verdict's `fraud_probability` is
`0.7 × 5 + 0.3 × 0.1 = 3.53 > 1`. -/
theorem score_field_exceeds_one_example :
    0 < sample_tx.amount
    ∧ ¬ ((detect_fraud sample_tx rogue_ml).fraud_probability ≤ 1) := by
  have e : (detect_fraud sample_tx rogue_ml).fraud_probability
      = 7/10 * ml_aggregate rogue_ml + 3/10 * rule_aggregate (run_rules sample_tx) := rfl
  have h1 : ml_aggregate rogue_ml = 5 := by
    have h5 : ml_fraud_probs rogue_ml = [5] := by
      simp [ml_fraud_probs, rogue_ml, List.filterMap_cons]
    rw [ml_aggregate, h5]
    norm_num
  have h2 : rule_aggregate (run_rules sample_tx) = 1/10 := by
    rw [rule_aggregate, sample_tx_trig]
    simp
  constructor
  · norm_num [sample_tx]
  · rw [e, h1, h2]
    norm_num

/-- **C3, amended.** For every transaction with `amount > 0`, *provided every
non-error model prediction reports `fraud_probability` and `confidence_score`
in `[0, 1]`* (as `predict_proba`-style models do, but the code never
enforces), the scoring call returns a verdict in which `fraud_probability`,
`risk_score`, `confidence_score` and `composite_risk_score` all lie in
`[0, 1]`. -/
theorem score_fields_unit_interval (tx : Tx) (ml : List MLEntry)
    (hamount : 0 < tx.amount)
    (hml : ∀ p c, MLEntry.ok p c ∈ ml → (0 ≤ p ∧ p ≤ 1) ∧ (0 ≤ c ∧ c ≤ 1)) :
    (0 ≤ (detect_fraud tx ml).fraud_probability
      ∧ (detect_fraud tx ml).fraud_probability ≤ 1)
    ∧ (0 ≤ (detect_fraud tx ml).risk_score ∧ (detect_fraud tx ml).risk_score ≤ 1)
    ∧ (0 ≤ (detect_fraud tx ml).confidence_score
      ∧ (detect_fraud tx ml).confidence_score ≤ 1)
    ∧ (0 ≤ (detect_fraud tx ml).risk_metrics.composite_risk_score
      ∧ (detect_fraud tx ml).risk_metrics.composite_risk_score ≤ 1) := by
  have hp : ∀ x ∈ ml_fraud_probs ml, 0 ≤ x ∧ x ≤ 1 := by
    intro x hx
    simp only [ml_fraud_probs, List.mem_filterMap] at hx
    obtain ⟨e, he, hxe⟩ := hx
    cases e with
    | ok p c =>
      obtain rfl : p = x := by simpa using hxe
      exact (hml p c he).1
    | err m => simp at hxe
  have hc : ∀ x ∈ ml_confidences ml, 0 ≤ x ∧ x ≤ 1 := by
    intro x hx
    simp only [ml_confidences, List.mem_filterMap] at hx
    obtain ⟨e, he, hxe⟩ := hx
    cases e with
    | ok p c =>
      obtain rfl : c = x := by simpa using hxe
      exact (hml p c he).2
    | err m => simp at hxe
  have hpb := ml_aggregate_bounds ml hp
  have hcb := confidence_aggregate_bounds ml hc
  have hrb := rule_aggregate_bounds (run_rules tx) (trig_scores_bounds tx)
  have e1 : (detect_fraud tx ml).fraud_probability
      = 7/10 * ml_aggregate ml + 3/10 * rule_aggregate (run_rules tx) := rfl
  have e2 : (detect_fraud tx ml).risk_score = rule_aggregate (run_rules tx) := rfl
  have e3 : (detect_fraud tx ml).confidence_score = confidence_aggregate ml := rfl
  have e4 : (detect_fraud tx ml).risk_metrics.composite_risk_score
      = min 1 ((7/10 * ml_aggregate ml + 3/10 * rule_aggregate (run_rules tx))
          * (1 + ((risk_factors_of tx).length : ℚ) * (1/10))) := rfl
  have hfp0 : 0 ≤ 7/10 * ml_aggregate ml + 3/10 * rule_aggregate (run_rules tx) := by
    linarith [hpb.1, hrb.1]
  have hfp1 : 7/10 * ml_aggregate ml + 3/10 * rule_aggregate (run_rules tx) ≤ 1 := by
    linarith [hpb.2, hrb.2]
  have hmult : (0:ℚ) ≤ 1 + ((risk_factors_of tx).length : ℚ) * (1/10) := by
    have hnn : (0:ℚ) ≤ ((risk_factors_of tx).length : ℚ) := Nat.cast_nonneg _
    linarith
  refine ⟨⟨?_, ?_⟩, ⟨?_, ?_⟩, ⟨?_, ?_⟩, ⟨?_, ?_⟩⟩
  · rw [e1]; exact hfp0
  · rw [e1]; exact hfp1
  · rw [e2]; exact hrb.1
  · rw [e2]; exact hrb.2
  · rw [e3]; exact hcb.1
  · rw [e3]; exact hcb.2
  · rw [e4]; exact le_min (by norm_num) (mul_nonneg hfp0 hmult)
  · rw [e4]; exact min_le_left _ _

/-- Witness for `score_fields_unit_interval` at a concrete transaction and a
concrete in-range model prediction. -/
theorem score_fields_unit_interval_witness :
    (0 ≤ (detect_fraud sample_tx good_ml).fraud_probability
      ∧ (detect_fraud sample_tx good_ml).fraud_probability ≤ 1)
    ∧ (0 ≤ (detect_fraud sample_tx good_ml).risk_score
      ∧ (detect_fraud sample_tx good_ml).risk_score ≤ 1)
    ∧ (0 ≤ (detect_fraud sample_tx good_ml).confidence_score
      ∧ (detect_fraud sample_tx good_ml).confidence_score ≤ 1)
    ∧ (0 ≤ (detect_fraud sample_tx good_ml).risk_metrics.composite_risk_score
      ∧ (detect_fraud sample_tx good_ml).risk_metrics.composite_risk_score ≤ 1) := by
  refine score_fields_unit_interval sample_tx good_ml (by norm_num [sample_tx]) ?_
  intro p c h
  simp only [good_ml, List.mem_cons, List.not_mem_nil, or_false, MLEntry.ok.injEq] at h
  obtain ⟨rfl, rfl⟩ := h
  norm_num

/-! ## The rolling performance counter (C10) -/

/-- The performance-tracking state of `FraudDetector` (lines 37-39). -/
structure PerfState where
  prediction_count : ℕ
  avg_prediction_time : ℚ
deriving DecidableEq

/-- The fresh state set in `FraudDetector.__init__` (lines 38-39). -/
def fresh_perf : PerfState := ⟨0, 0⟩

/-- `FraudDetector._update_performance_metrics` (lines 513-519): increment the
count, then fold the new time into the running average using the incremented
count. -/
def update_performance_metrics (s : PerfState) (prediction_time : ℚ) : PerfState :=
  let prediction_count := s.prediction_count + 1
  { prediction_count := prediction_count
    avg_prediction_time :=
      (s.avg_prediction_time * ((prediction_count : ℚ) - 1) + prediction_time)
        / (prediction_count : ℚ) }

/-- A sequence of successful scoring calls, each recording its prediction
time (`detect_fraud`, lines 119-124). -/
def record_predictions (s : PerfState) (times : List ℚ) : PerfState :=
  times.foldl update_performance_metrics s

lemma record_cons (s : PerfState) (t : ℚ) (ts : List ℚ) :
    record_predictions s (t :: ts)
      = record_predictions (update_performance_metrics s t) ts := rfl

lemma update_step (n : ℕ) (a t : ℚ) :
    update_performance_metrics ⟨n, a⟩ t
      = ⟨n + 1, (a * (n : ℚ) + t) / ((n : ℚ) + 1)⟩ := by
  simp only [update_performance_metrics, PerfState.mk.injEq, true_and]
  push_cast
  ring_nf

lemma record_count (times : List ℚ) : ∀ s : PerfState,
    (record_predictions s times).prediction_count
      = s.prediction_count + times.length := by
  induction times with
  | nil => intro s; simp [record_predictions]
  | cons t ts ih =>
    intro s
    rw [record_cons, ih]
    simp [update_performance_metrics]
    omega

lemma record_avg (times : List ℚ) : ∀ (n : ℕ) (a : ℚ), 0 < n →
    (record_predictions ⟨n, a⟩ times).avg_prediction_time
      = (a * (n : ℚ) + times.sum) / ((n : ℚ) + (times.length : ℚ)) := by
  induction times with
  | nil =>
    intro n a hn
    have hn' : ((n : ℚ)) ≠ 0 := by exact_mod_cast hn.ne'
    simp [record_predictions]
    field_simp
  | cons t ts ih =>
    intro n a hn
    rw [record_cons, update_step, ih (n + 1) _ (Nat.succ_pos n)]
    have h1 : ((n : ℚ)) + 1 ≠ 0 := by positivity
    have h2 : ((n : ℚ)) + ((ts.length : ℚ) + 1) ≠ 0 := by positivity
    have h3 : ((n : ℚ)) + 1 + (ts.length : ℚ) ≠ 0 := by positivity
    simp only [List.sum_cons, List.length_cons]
    push_cast
    field_simp
    ring

/-- **C10.** Starting from a fresh detector (`prediction_count = 0`,
`avg_prediction_time = 0.0`), every successful scoring call increments
`prediction_count` by exactly 1, and after any sequence of `n` successful
calls with recorded prediction times `t1..tn`, `avg_prediction_time` equals
the arithmetic mean `(t1 + ... + tn) / n`. -/
theorem performance_counter_running_mean (times : List ℚ) :
    (∀ (s : PerfState) (t : ℚ),
      (update_performance_metrics s t).prediction_count = s.prediction_count + 1)
    ∧ (record_predictions fresh_perf times).prediction_count = times.length
    ∧ (times ≠ [] →
        (record_predictions fresh_perf times).avg_prediction_time
          = times.sum / (times.length : ℚ)) := by
  refine ⟨fun s t => rfl, ?_, ?_⟩
  · rw [record_count]
    simp [fresh_perf]
  · intro hne
    match times, hne with
    | t :: ts, _ =>
      have step0 : update_performance_metrics fresh_perf t = ⟨1, t⟩ := by
        rw [show fresh_perf = (⟨0, 0⟩ : PerfState) from rfl, update_step]
        norm_num
      rw [record_cons, step0, record_avg ts 1 t (by norm_num)]
      simp only [List.sum_cons, List.length_cons]
      have h1 : (1:ℚ) + (ts.length : ℚ) ≠ 0 := by positivity
      have h2 : ((ts.length : ℚ)) + 1 ≠ 0 := by positivity
      push_cast
      rw [div_eq_div_iff h1 h2]
      ring

/-- Witness for `performance_counter_running_mean`: two calls with times
`2` and `4` leave count `2` and average `3`. -/
theorem performance_counter_running_mean_witness :
    ([(2:ℚ), 4] ≠ [])
    ∧ (record_predictions fresh_perf [(2:ℚ), 4]).avg_prediction_time
        = ([(2:ℚ), 4].sum / (([(2:ℚ), 4].length : ℚ)))
    ∧ (record_predictions fresh_perf [(2:ℚ), 4]).prediction_count = 2 :=
  ⟨by simp,
   (performance_counter_running_mean [(2:ℚ), 4]).2.2 (by simp),
   (performance_counter_running_mean [(2:ℚ), 4]).2.1⟩

/-! ## The transaction preprocessor (`backend/models/preprocessor.py`) -/

/-- One row of the transaction frame handled by `TransactionPreprocessor`
(the columns used by the embedded fragment). -/
structure TxnRow where
  user_id : ℕ
  amount : ℚ
  merchant : String
  category : String
  location : Option String
deriving DecidableEq

/-- The `amount` values of the rows of `df` with the given `user_id` (the
`groupby('user_id')` of `create_features`, lines 44-48). -/
def user_amounts (df : List TxnRow) (u : ℕ) : List ℚ :=
  (df.filter fun r => r.user_id == u).map fun r => r.amount

/-- The `amount_mean` aggregate column of `create_features` (lines 44-51),
for user `u`, computed over the frame `df` being featurised. -/
def amount_mean (df : List TxnRow) (u : ℕ) : ℚ :=
  (user_amounts df u).sum / ((user_amounts df u).length : ℚ)

/-- The `amount_count` aggregate column of `create_features`. -/
def amount_count (df : List TxnRow) (u : ℕ) : ℕ :=
  (user_amounts df u).length

/-- The `merchant_nunique` aggregate column of `create_features`. -/
def merchant_nunique (df : List TxnRow) (u : ℕ) : ℕ :=
  ((df.filter fun r => r.user_id == u).map fun r => r.merchant).dedup.length

/-- Lexicographic comparison of char lists (the string order `np.unique`
sorts by). -/
def chars_le : List Char → List Char → Bool
  | [], _ => true
  | _ :: _, [] => false
  | a :: as, b :: bs => if a < b then true else if b < a then false else chars_le as bs

/-- String comparison used for sorting encoder classes. -/
def str_le (a b : String) : Bool := chars_le a.toList b.toList

/-- Sorted insertion w.r.t. `str_le`. -/
def insert_sorted (a : String) : List String → List String
  | [] => [a]
  | b :: t => if str_le a b then a :: b :: t else b :: insert_sorted a t

/-- Insertion sort of strings (the sort inside `np.unique`). -/
def sort_strings : List String → List String
  | [] => []
  | a :: t => insert_sorted a (sort_strings t)

/-- `LabelEncoder.fit` on a column whose missing values were filled with
`"unknown"` (`fit`, lines 95-96): `classes_` is the sorted list of distinct
values actually present.  `"unknown"` is a class only if some value was
missing at fit time. -/
def fit_label_encoder (vals : List (Option String)) : List String :=
  (sort_strings (vals.map fun v => v.getD "unknown")).dedup

/-- The index of a value in the encoder's class list (`np.searchsorted`
semantics on found values; `none` models the `ValueError` that
`LabelEncoder.transform` raises on an unseen label). -/
def class_index (classes : List String) (v : String) : Option ℕ :=
  match classes with
  | [] => none
  | c :: cs => if c = v then some 0 else (class_index cs v).map (· + 1)

/-- `LabelEncoder.transform` for one value. -/
def label_transform (classes : List String) (v : String) : Except String ℕ :=
  match class_index classes v with
  | some i => .ok i
  | none => .error "y contains previously unseen labels"

/-- The per-value encoding loop of `TransactionPreprocessor.transform`
(lines 129-134): try the value; on `ValueError` encode `"unknown"` instead —
which itself raises if `"unknown"` is not among the fitted classes. -/
def safe_label_transform (classes : List String) (v : String) : Except String ℕ :=
  match label_transform classes v with
  | .ok i => .ok i
  | .error _ => label_transform classes "unknown"

/-- The fitted state stored by `TransactionPreprocessor`
(lines 23-27, 85-106).  The numeric scalers' fitted parameters (RobustScaler
center/scale) play no role in the verified claims and are recorded by feature
name only; note that no per-identity aggregate value is stored. -/
structure TransactionPreprocessor where
  scalers : List String
  encoders : List (String × List String)
  feature_names : List String
  is_fitted : Bool
deriving DecidableEq

/-- The `numerical_features` list of `fit` (lines 77-81). -/
def numerical_features : List String :=
  ["amount", "amount_log", "hour", "day_of_week", "amount_mean", "amount_std",
   "amount_min", "amount_max", "merchant_frequency", "time_since_last"]

/-- The `categorical_features` list of `fit` (line 83). -/
def categorical_features : List String := ["merchant", "category", "location"]

/-- The values of a categorical column of the frame. -/
def column_vals (df : List TxnRow) (feature : String) : List (Option String) :=
  if feature = "merchant" then df.map fun r => some r.merchant
  else if feature = "category" then df.map fun r => some r.category
  else df.map fun r => r.location

/-- `TransactionPreprocessor.fit` (lines 69-108): fit scalers and label
encoders, store the feature names. -/
def TransactionPreprocessor.fit (df : List TxnRow) : TransactionPreprocessor :=
  { scalers := numerical_features
    encoders := categorical_features.map fun f => (f, fit_label_encoder (column_vals df f))
    feature_names := numerical_features
      ++ (categorical_features.map fun f => f ++ "_encoded")
      ++ ["is_weekend", "is_night", "amount_rounded", "merchant_rare",
          "high_amount", "velocity_risk"]
    is_fitted := true }

/-- The `amount_mean` feature value used for row `r` when
`transform st df` runs: `transform` recomputes `create_features(df)` on the
very frame passed to it (line 115), so the aggregate comes from `df` itself;
the fitted state `st` contributes only the scaling applied afterwards. -/
def transform_amount_mean (_st : TransactionPreprocessor) (df : List TxnRow)
    (r : TxnRow) : ℚ :=
  amount_mean df r.user_id

/-- The `amount_count` feature value used for row `r` when
`transform st df` runs (same recomputation, line 115). -/
def transform_amount_count (_st : TransactionPreprocessor) (df : List TxnRow)
    (r : TxnRow) : ℕ :=
  amount_count df r.user_id

/-- The `merchant_nunique` feature value used for row `r` when
`transform st df` runs (same recomputation, line 115). -/
def transform_merchant_nunique (_st : TransactionPreprocessor) (df : List TxnRow)
    (r : TxnRow) : ℕ :=
  merchant_nunique df r.user_id

/-- A two-transaction training corpus for user 1 with mean amount 15. -/
def train_rows : List TxnRow :=
  [⟨1, 10, "grocer", "food", some "NYC"⟩, ⟨1, 20, "cafe", "food", some "NYC"⟩]

/-- A single incoming transaction for user 1 with amount 100. -/
def incoming_row : TxnRow := ⟨1, 100, "grocer", "food", some "NYC"⟩

/-- **C6, counterexample.** The claim says the per-identity aggregates used at
inference time are looked up from the fitted state and never recomputed from
the incoming record(s).  In the code, `transform` recomputes them from the
incoming frame: with a preprocessor fitted on a corpus where user 1's mean
amount is 15, transforming a single incoming transaction of amount 100 uses
`amount_mean = 100` (the incoming transaction's own amount), not the fitted
corpus value 15. -/
theorem aggregates_recomputed_example :
    transform_amount_mean (TransactionPreprocessor.fit train_rows) [incoming_row] incoming_row
      = 100
    ∧ amount_mean train_rows 1 = 15
    ∧ transform_amount_mean (TransactionPreprocessor.fit train_rows) [incoming_row] incoming_row
        ≠ amount_mean train_rows 1 := by
  have h1 : user_amounts [incoming_row] 1 = [100] := by
    simp [user_amounts, incoming_row]
  have h2 : user_amounts train_rows 1 = [10, 20] := by
    simp [user_amounts, train_rows]
  have hu : incoming_row.user_id = 1 := rfl
  have e1 : transform_amount_mean (TransactionPreprocessor.fit train_rows)
      [incoming_row] incoming_row = 100 := by
    simp only [transform_amount_mean, amount_mean, hu, h1]
    norm_num
  have e2 : amount_mean train_rows 1 = 15 := by
    simp only [amount_mean, h2]
    norm_num
  exact ⟨e1, e2, by rw [e1, e2]; norm_num⟩

/-- **C6, amended.** At inference time the per-identity aggregate features are
*recomputed* by `create_features` from the record(s) passed to `transform`:
they agree with the aggregates of the incoming frame, do not depend on the
fitted state (which stores no aggregates), and for a single incoming
transaction they degenerate to that transaction's own values. -/
theorem aggregates_recomputed_at_transform (st st2 : TransactionPreprocessor)
    (df : List TxnRow) (r : TxnRow) :
    transform_amount_mean st df r = amount_mean df r.user_id
    ∧ transform_amount_mean st df r = transform_amount_mean st2 df r
    ∧ transform_amount_count st df r = amount_count df r.user_id
    ∧ transform_merchant_nunique st df r = merchant_nunique df r.user_id
    ∧ transform_amount_mean st [r] r = r.amount
    ∧ transform_amount_count st [r] r = 1 := by
  have hsingle : user_amounts [r] r.user_id = [r.amount] := by
    simp [user_amounts]
  refine ⟨rfl, rfl, rfl, rfl, ?_, ?_⟩
  · simp only [transform_amount_mean, amount_mean, hsingle]
    norm_num
  · simp only [transform_amount_count, amount_count, hsingle]
    rfl

/-- **C7, counterexample.** The claim says any category value unseen at fit
time maps to a *reserved* `"unknown"` bucket.  But `fit` only adds
`"unknown"` to the encoder's classes when some fit-time value was missing
(`fillna`, line 96): an encoder fitted on `["alpha", "beta"]` (no missing
values) has no `"unknown"` class, and transforming the unseen value
`"gamma"` raises `ValueError` instead of mapping it anywhere. -/
theorem unseen_label_without_unknown_fails :
    fit_label_encoder [some "alpha", some "beta"] = ["alpha", "beta"]
    ∧ safe_label_transform (fit_label_encoder [some "alpha", some "beta"]) "gamma"
        = .error "y contains previously unseen labels" :=
  ⟨by decide, rfl⟩

lemma self_mem_insert_sorted (a : String) (l : List String) : a ∈ insert_sorted a l := by
  induction l with
  | nil => simp [insert_sorted]
  | cons b t ih =>
    simp only [insert_sorted]
    split_ifs
    · exact List.mem_cons_self _ _
    · exact List.mem_cons_of_mem b ih

lemma mem_insert_sorted_of_mem (a x : String) (l : List String) (h : x ∈ l) :
    x ∈ insert_sorted a l := by
  induction l with
  | nil => simp at h
  | cons b t ih =>
    simp only [insert_sorted]
    split_ifs
    · exact List.mem_cons_of_mem a h
    · rcases List.mem_cons.mp h with rfl | h2
      · exact List.mem_cons_self _ _
      · exact List.mem_cons_of_mem b (ih h2)

lemma mem_sort_strings (x : String) (l : List String) (h : x ∈ l) :
    x ∈ sort_strings l := by
  induction l with
  | nil => simp at h
  | cons b t ih =>
    simp only [sort_strings]
    rcases List.mem_cons.mp h with rfl | h2
    · exact self_mem_insert_sorted _ _
    · exact mem_insert_sorted_of_mem _ _ _ (ih h2)

/-- **C7, amended.** An unseen categorical value maps to the `"unknown"`
bucket of the corresponding label encoder *provided `"unknown"` is among the
fitted classes* — which `fit` guarantees only when some value was missing at
fit time; otherwise the transform raises `ValueError`. -/
theorem unseen_label_maps_to_unknown_bucket (vals : List (Option String))
    (classes : List String) (v : String) (j : ℕ) :
    (none ∈ vals → "unknown" ∈ fit_label_encoder vals)
    ∧ (class_index classes v = none → class_index classes "unknown" = some j →
        safe_label_transform classes v = .ok j) := by
  constructor
  · intro hnone
    have hmem : "unknown" ∈ vals.map fun w => w.getD "unknown" :=
      List.mem_map.mpr ⟨none, hnone, rfl⟩
    exact List.mem_dedup.mpr (mem_sort_strings _ _ hmem)
  · intro hv hu
    simp only [safe_label_transform, label_transform, hv, hu]

/-- Witness for `unseen_label_maps_to_unknown_bucket`: an encoder fitted on a
column with a missing value gets an `"unknown"` class, and an encoder whose
classes are `["alpha", "unknown"]` maps the unseen `"zz"` to index 1. -/
theorem unseen_label_maps_to_unknown_bucket_witness :
    "unknown" ∈ fit_label_encoder [some "alpha", none]
    ∧ safe_label_transform ["alpha", "unknown"] "zz" = .ok 1 :=
  ⟨(unseen_label_maps_to_unknown_bucket [some "alpha", none]
      ["alpha", "unknown"] "zz" 1).1 (by decide),
   (unseen_label_maps_to_unknown_bucket [some "alpha", none]
      ["alpha", "unknown"] "zz" 1).2 (by decide) (by decide)⟩

/-! ## The autoencoder decision threshold (`backend/models/autoencoder.py`) -/

/-- Sorted insertion of a rational. -/
def insert_rat (a : ℚ) : List ℚ → List ℚ
  | [] => [a]
  | b :: t => if a ≤ b then a :: b :: t else b :: insert_rat a t

/-- Insertion sort of rationals (the sort inside `np.percentile`). -/
def sort_rats : List ℚ → List ℚ
  | [] => []
  | a :: t => insert_rat a (sort_rats t)

/-- `np.percentile(l, q)` with the default linear interpolation, over exact
rationals: on the sorted data `s` of length `n`, the virtual index is
`h = q(n-1)/100` and the result interpolates between `s[⌊h⌋]` and
`s[⌊h⌋+1]`.  (`np.percentile` of an empty array raises; the `0` returned
here for `[]` is never relied upon.) -/
def percentile (l : List ℚ) (q : ℚ) : ℚ :=
  let s := sort_rats l
  if s = [] then 0
  else
    let h : ℚ := q * ((s.length : ℚ) - 1) / 100
    let i : ℤ := ⌊h⌋
    let lo := s.getD i.toNat 0
    let hi := s.getD (i.toNat + 1) lo
    lo + (h - (i : ℚ)) * (hi - lo)

/-- `np.mean(np.square(X - X_reconstructed), axis=1)` (line 213): the
per-sample mean squared reconstruction error. -/
def reconstruction_errors (X Xrec : List (List ℚ)) : List ℚ :=
  List.zipWith
    (fun a b =>
      let ds := List.zipWith (fun x y => (x - y)^2) a b
      ds.sum / (ds.length : ℚ))
    X Xrec

/-- `AutoencoderModel._calculate_threshold` (lines 208-222), called by `fit`
on the training rows `X` with the model's reconstructions `Xrec`: the 95th
percentile of the per-sample reconstruction error, or the constant `0.1` if
the computation raised (`exn`). -/
def calculate_threshold (X Xrec : List (List ℚ)) (exn : Option String) : ℚ :=
  match exn with
  | some _ => 1/10
  | none => percentile (reconstruction_errors X Xrec) 95

/-- Modelled from the spec (§4.2), for comparison with the code: the spec's
`calibrate_threshold(X_normal, contamination_rate)` sets the threshold to the
contamination-rate-th percentile of the per-sample reconstruction error, with
default rate 90. -/
def calibrate_threshold_spec (errs : List ℚ) (contamination_rate : ℚ) : ℚ :=
  percentile errs contamination_rate

/-- Three training rows and their reconstructions, giving per-sample errors
`[0, 0, 9]`. -/
def normal_X : List (List ℚ) := [[0], [0], [3]]

/-- Reconstructions of `normal_X` (all zero). -/
def normal_Xrec : List (List ℚ) := [[0], [0], [0]]

lemma normal_errors : reconstruction_errors normal_X normal_Xrec = [0, 0, 9] := by
  norm_num [reconstruction_errors, normal_X, normal_Xrec]

lemma sort_normal_errors : sort_rats [0, 0, 9] = [(0:ℚ), 0, 9] := by
  norm_num [sort_rats, insert_rat]

lemma percentile_95_of_errors : percentile [(0:ℚ), 0, 9] 95 = 81/10 := by
  rw [percentile]
  rw [sort_normal_errors]
  have hfl : ⌊(95 * (((3:ℕ) : ℚ) - 1) / 100 : ℚ)⌋ = 1 := by
    norm_num
  norm_num [hfl, List.getD]
  simp

lemma percentile_90_of_errors : percentile [(0:ℚ), 0, 9] 90 = 36/5 := by
  rw [percentile]
  rw [sort_normal_errors]
  have hfl : ⌊(90 * (((3:ℕ) : ℚ) - 1) / 100 : ℚ)⌋ = 1 := by
    norm_num
  norm_num [hfl, List.getD]
  simp

/-- **C5, counterexample.** The claim says the fitted threshold is the
contamination-rate-th percentile of the training reconstruction error,
defaulting to the 90th.  The code's `_calculate_threshold` takes no
contamination-rate argument and hardcodes the **95th** percentile (line 216):
on training data with per-sample errors `[0, 0, 9]` the code sets the
threshold to `8.1`, whereas the spec's default 90th percentile is `7.2`. -/
theorem threshold_not_ninetieth_percentile :
    calculate_threshold normal_X normal_Xrec none = 81/10
    ∧ calibrate_threshold_spec (reconstruction_errors normal_X normal_Xrec) 90 = 36/5
    ∧ calculate_threshold normal_X normal_Xrec none
        ≠ calibrate_threshold_spec (reconstruction_errors normal_X normal_Xrec) 90 := by
  have e1 : calculate_threshold normal_X normal_Xrec none = 81/10 := by
    show percentile (reconstruction_errors normal_X normal_Xrec) 95 = 81/10
    rw [normal_errors, percentile_95_of_errors]
  have e2 : calibrate_threshold_spec (reconstruction_errors normal_X normal_Xrec) 90
      = 36/5 := by
    show percentile (reconstruction_errors normal_X normal_Xrec) 90 = 36/5
    rw [normal_errors, percentile_90_of_errors]
  exact ⟨e1, e2, by rw [e1, e2]; norm_num⟩

/-- **C5, amended.** After the anomaly model is fitted,
`_calculate_threshold(X_train)` sets the decision threshold to the fixed
**95th** percentile of the per-sample mean squared reconstruction error on
the training rows — there is no contamination-rate parameter — and falls back
to the constant `0.1` if the computation raises. -/
theorem threshold_is_ninety_fifth_percentile (X Xrec : List (List ℚ)) (e : String) :
    calculate_threshold X Xrec none = percentile (reconstruction_errors X Xrec) 95
    ∧ calculate_threshold X Xrec (some e) = 1/10 :=
  ⟨rfl, rfl⟩

end Sentinel
